import Mathlib

/-!
Shallow embedding of `bevry/pluginloader` (latest revision, the TypeScript
source `source/index.ts`) and proofs about its specification claims.

External collaborators (the semantic-version range test `semver.satisfies`,
the shape test `typechecker.isClass`, the module loader `require`, the
manifest loader, `process.platform` and `process.versions`) are injected,
exactly as the specification declares them to be ("treated as an external
capability").  JavaScript values that can be invoked are modelled by an
opaque-identity structure `JSValue` paired with an invocation oracle
`app : JSValue → JSValue → InvokeRes` supplied by the environment; the
result of `typechecker.isClass` on a value is carried by the value itself
as the Boolean field `isClassShaped`.

`Errlop` (the error-chaining library) is modelled as a message plus an
optional causal parent; its `stack` property is modelled as the full
rendered text of the chain (the runtime stack-frame noise is not part of
the model).  Thrown errors and returned `Except.error` values are
identified, as the code is entirely synchronous.
-/

namespace Pluginloader

/-- Model of an `Errlop` (and of a plain JavaScript `Error`): a
human-readable message plus an optional causal parent error
(`base` when the constructor received no parent, `chain` otherwise). -/
inductive Errlop where
  | base (message : String)
  | chain (message : String) (parent : Errlop)
deriving DecidableEq, Repr

/-- The constructor call `new Errlop(message, parent)` with a possibly
absent parent. -/
def mkErrlop (message : String) (parent : Option Errlop) : Errlop :=
  match parent with
  | none => .base message
  | some p => .chain message p

/-- The message of an error. -/
def Errlop.message : Errlop → String
  | .base m => m
  | .chain m _ => m

/-- The causal parent of an error. -/
def Errlop.parent : Errlop → Option Errlop
  | .base _ => none
  | .chain _ p => some p

/-- Model of the `.stack` property of an `Errlop`: the full rendered text
of the error chain (own message, then each ancestor's text). -/
def Errlop.stack : Errlop → String
  | .base m => m
  | .chain m p => m ++ "\n↳ " ++ Errlop.stack p

/-- A JavaScript runtime value, as far as class resolution needs one: an
opaque identity `tag` plus the answer the external shape test
`typechecker.isClass` gives on it. -/
structure JSValue where
  isClassShaped : Bool
  tag : Nat
deriving DecidableEq, Repr

/-- The outcome of invoking a `JSValue` as a function with one argument:
either an error is thrown or a value is returned. -/
inductive InvokeRes where
  | throws (e : Errlop)
  | returns (v : JSValue)
deriving DecidableEq, Repr

/-- JavaScript truthiness of a string: non-empty. -/
def truthy (s : String) : Bool :=
  !s.data.isEmpty

/-- JavaScript truthiness of an optional string (`undefined` is falsy). -/
def truthyOpt (s : Option String) : Bool :=
  match s with
  | some v => truthy v
  | none => false

/-- Template-literal interpolation of a possibly-`undefined` string:
`undefined` renders as the string "undefined". -/
def jsStr (s : Option String) : String :=
  match s with
  | some v => v
  | none => "undefined"

/-- The expression `this.pluginPath || this.pluginName`: the plugin path
when it is truthy, the derived plugin name otherwise. -/
def locOrName (path : Option String) (nm : String) : String :=
  match path with
  | some p => if truthy p then p else nm
  | none => nm

/-- `Array.prototype.join(', ')`. -/
def joinComma : List String → String
  | [] => ""
  | [s] => s
  | s :: rest => s ++ ", " ++ joinComma rest

/-- `Array.prototype.join('\n')`, used to aggregate violation texts. -/
def joinStacks : List String → String
  | [] => ""
  | [s] => s
  | s :: rest => s ++ "\n" ++ joinStacks rest

/-- A character allowed by the source's `alphanumeric` regex class
`[a-z0-9]`. -/
def isAlphaNum (c : Char) : Bool :=
  ('a' ≤ c && c ≤ 'z') || ('0' ≤ c && c ≤ '9')

/-- The test `/^[a-z0-9]+$/.test(s)`: non-empty and every character in
`[a-z0-9]`.  No case folding. -/
def alphanumericTest (s : String) : Bool :=
  !s.data.isEmpty && s.data.all isAlphaNum

/-- A JavaScript word character, the regex class `\w` = `[A-Za-z0-9_]`. -/
def isWordChar (c : Char) : Bool :=
  ('a' ≤ c && c ≤ 'z') || ('A' ≤ c && c ≤ 'Z') || ('0' ≤ c && c ≤ '9') || c = '_'

/-- Whether a list of characters is non-empty and starts with a
character other than a newline (the regex `.` never matches `\n`). -/
def headNonNewline : List Char → Bool
  | [] => false
  | c :: _ => c != '\n'

/-- One `String.prototype.replace` step with the regex `-.+` (first match
replaced by the empty string) on the character list:
at the first `-` that is followed by at least one non-newline character,
the `-` and the maximal following run of non-newline characters are
removed (the regex is greedy and `.` stops at a newline); everything
else is kept. -/
def dropFlag : List Char → List Char
  | [] => []
  | c :: rest =>
      if c == '-' && headNonNewline rest then
        rest.dropWhile (fun x => x != '\n')
      else
        c :: dropFlag rest

/-- The source's pre-release-flag stripping of a version string:
`String(version).replace` with the regex `-.+` and replacement `''`
(comment in the source: "the .replace is to support version flags,
such as -beta"). -/
def stripFlag (s : String) : String :=
  ⟨dropFlag s.data⟩

/-- Modelled from the spec: the specification's own wording of the
stripping rule, "strip any pre-release suffix (characters from the first
`-` onward) from the ... version".  Kept separate from `stripFlag`
(translated from the code) so the two can be compared. -/
def specStripVersion (s : String) : String :=
  ⟨s.data.takeWhile (fun c => c != '-')⟩

/-- Whether the regex `Class constructor \w+ cannot be invoked without
'new'` matches starting exactly at the head of the character list:
the first literal, then at least one word character (the following
literal starts with a space, so only the maximal word-character run can
be a match), then the second literal as a prefix of the remainder. -/
def classCtorMatchHere (l : List Char) : Bool :=
  let lit1 := "Class constructor ".data
  let lit2 := " cannot be invoked without 'new'".data
  if lit1.isPrefixOf l then
    let rest := l.drop lit1.length
    let run := rest.takeWhile isWordChar
    !run.isEmpty && lit2.isPrefixOf (rest.drop run.length)
  else
    false

/-- Whether the regex matches at the head of any suffix of the list. -/
def classCtorMatchList : List Char → Bool
  | [] => false
  | l@(_ :: rest) => classCtorMatchHere l || classCtorMatchList rest

/-- The unanchored test of the regex `Class constructor \w+ cannot be
invoked without 'new'` against an error message, used by class
resolution to recognise the known false negative of the shape
detector. -/
def classCtorRegexMatch (msg : String) : Bool :=
  classCtorMatchList msg.data

/-- Lookup in a string-keyed map modelled as an association list
(JavaScript object property access `m[k]`). -/
def lookupStr (l : List (String × String)) (k : String) : Option String :=
  match l.find? (fun p => p.1 == k) with
  | some p => some p.2
  | none => none

/-- The caller-supplied (or manifest-loaded) `package.json` data before
the constructor fills in defaults: every collection field may be absent,
and `name` may be absent too (`Partial<PackageData>`). -/
structure PackageDataInput where
  name : Option String
  keywords : Option (List String)
  platforms : Option (List String)
  engines : Option (List (String × String))
  peerDependencies : Option (List (String × String))
deriving DecidableEq, Repr

/-- The fully defaulted `PackageData` held by the loader after the
constructor's "ensure" block. -/
structure PackageData where
  name : String
  keywords : List String
  platforms : List String
  engines : List (String × String)
  peerDependencies : List (String × String)
deriving DecidableEq, Repr

/-- The constructor's "ensure" block: each absent collection field is
replaced by an empty container; the `name` field renders as the empty
string when absent (it is validated before this point). -/
def defaultData (pd : PackageDataInput) : PackageData :=
  { name := pd.name.getD ""
    keywords := pd.keywords.getD []
    platforms := pd.platforms.getD []
    engines := pd.engines.getD []
    peerDependencies := pd.peerDependencies.getD [] }

/-- The `PluginLoaderOptions` the constructor receives.  The `prefix`
option of the source is named `pfx` here.  The logger is omitted: it has
no effect on any result. -/
structure PluginLoaderOptions where
  keyword : Option String
  pfx : Option String
  versions : Option (List (String × String))
  pluginPath : Option String
  packageData : Option PackageDataInput
  pluginClass : Option JSValue
  basePlugin : JSValue

/-- The injected environment: the external collaborators of the core.
`sat` is `semver.satisfies`; `app f x` is the outcome of the JavaScript
call `f(x)`; `platform` is `process.platform`; `processVersions` is
`process.versions`; `manifest p` is `require(resolve(p, 'package.json'))`;
`moduleLoad p` is `require(p)` (with the possibly-absent plugin path). -/
structure Env where
  sat : String → String → Bool
  app : JSValue → JSValue → InvokeRes
  platform : String
  processVersions : List (String × String)
  manifest : String → PackageDataInput
  moduleLoad : Option String → JSValue

/-- The constructed `PluginLoader` state: the fields the instance holds
after a successful construction. -/
structure PluginLoader where
  keyword : Option String
  pfx : Option String
  versions : List (String × String)
  pluginPath : Option String
  packageData : PackageData
  pluginName : String
  pluginClass : JSValue
  basePlugin : JSValue

/-- The loop body of `checkVersions` for one key of the `versions` map:
strip the pre-release flag from the actual version; when the `ranges`
map has a truthy range for that key and the stripped version does not
satisfy it, one error with the source's exact message (which
interpolates the range in both brackets); no error otherwise. -/
def versionEntryError (sat : String → String → Bool)
    (ranges : List (String × String)) (group : String)
    (vp : String × String) : Option Errlop :=
  match lookupStr ranges vp.1 with
  | some range =>
      if truthy range && !(sat (stripFlag vp.2) range) then
        some (Errlop.base
          (group ++ " [" ++ vp.1 ++ " = " ++ range ++
            "] unsupported by plugin's range [" ++ range ++ "]"))
      else none
  | none => none

/-- Whether one key of the `versions` map is a violation: its declared
range exists and is truthy and the flag-stripped actual version fails
the range test. -/
def versionEntryViolates (sat : String → String → Bool)
    (ranges : List (String × String)) (vp : String × String) : Bool :=
  match lookupStr ranges vp.1 with
  | some range => truthy range && !(sat (stripFlag vp.2) range)
  | none => false

/-- The function `checkVersions(versions, ranges, group)` of the source:
walk the keys of the `versions` map, collecting the per-entry errors. -/
def checkVersions (sat : String → String → Bool)
    (versions : List (String × String)) (ranges : List (String × String))
    (group : String) : List Errlop :=
  versions.filterMap (versionEntryError sat ranges group)

/-- The keyword policy of `validate`: a truthy configured keyword that
the metadata's keyword list does not contain yields one violation. -/
def keywordErrors (keyword : Option String) (kws : List String) : List Errlop :=
  if truthyOpt keyword && !(kws.contains (keyword.getD "")) then
    [Errlop.base ("keyword [" ++ keyword.getD "" ++
      "] missing from the plugin's keywords [" ++ joinComma kws ++ "]")]
  else []

/-- The platform policy of `validate`: a non-empty declared platform list
that does not contain the current platform yields one violation. -/
def platformErrors (platform : String) (platforms : List String) : List Errlop :=
  if !platforms.isEmpty && !(platforms.contains platform) then
    [Errlop.base ("platform [" ++ platform ++
      "] unsupported by plugin's engines [" ++ joinComma platforms ++ "]")]
  else []

/-- The full violation list collected by `validate`, in the source's
order: keyword, platform, engines (against `process.versions`), peer
dependencies (against the loader's `versions`). -/
def validationErrors (env : Env) (st : PluginLoader) : List Errlop :=
  keywordErrors st.keyword st.packageData.keywords
    ++ platformErrors env.platform st.packageData.platforms
    ++ checkVersions env.sat env.processVersions st.packageData.engines "engine"
    ++ checkVersions env.sat st.versions st.packageData.peerDependencies
        "peer dependency"

/-- The cause `validate` wraps: the single violation when there is
exactly one, otherwise a synthesized error whose message is every
violation's stack text joined by newlines. -/
def aggCause (errors : List Errlop) : Errlop :=
  match errors with
  | [e] => e
  | es => Errlop.base (joinStacks (es.map Errlop.stack))

/-- The throwing tail of `validate`: `none` when no violation was
collected, otherwise the top-level unsupported error, whose message
interpolates `this.pluginPath` (the string "undefined" when absent),
wrapping the aggregated cause. -/
def aggregate (pluginPath : Option String) (errors : List Errlop) :
    Option Errlop :=
  match errors with
  | [] => none
  | es => some (Errlop.chain
      ("Plugin [" ++ jsStr pluginPath ++ "] is unsupported.") (aggCause es))

/-- The `error` helper of the loader: prepend the message, then a line
naming `this.pluginPath || this.pluginName`, with an optional parent. -/
def loaderError (pluginPath : Option String) (pluginName : String)
    (message : String) (parent : Option Errlop) : Errlop :=
  mkErrlop (message ++ "\nPlugin: " ++ locOrName pluginPath pluginName) parent

/-- The `resolve` method: a class-shaped candidate resolves directly;
otherwise the candidate is invoked with the base plugin as sole
argument.  A thrown error matching the class-constructor regex resolves
to the original candidate (false-negative fallback); any other thrown
error becomes an indirect-resolution failure wrapping it; a returned
value resolves if class-shaped and otherwise becomes a
not-detectable-as-a-class failure. -/
def resolve (app : JSValue → JSValue → InvokeRes) (pluginPath : Option String)
    (pluginName : String) (basePlugin : JSValue) (direct : JSValue) :
    Except Errlop JSValue :=
  if direct.isClassShaped then
    .ok direct
  else
    match app direct basePlugin with
    | .throws e =>
        if classCtorRegexMatch e.message then
          .ok direct
        else
          .error (loaderError pluginPath pluginName
            "The indirect resolution of the PluginClass failed." (some e))
    | .returns indirect =>
        if indirect.isClassShaped then
          .ok indirect
        else
          .error (loaderError pluginPath pluginName
            "The resolved PluginClass was not detectable as a class." none)

/-- The metadata-acquisition head of the constructor: use the supplied
package data when present; otherwise load the manifest from a truthy
plugin path; otherwise fail with the configuration error. -/
def acquirePackageData (env : Env) (opts : PluginLoaderOptions) :
    Except Errlop PackageDataInput :=
  match opts.packageData with
  | some pd => .ok pd
  | none =>
      if truthyOpt opts.pluginPath then
        .ok (env.manifest (opts.pluginPath.getD ""))
      else
        .error (Errlop.base
          "Either the plugin's package data or the plugin's path must be specified.")

/-- Prefix handling of the constructor: with a truthy configured prefix,
a raw name starting with it (`indexOf(p) === 0`) is stripped by
`substr(p.length)`; a raw name not starting with it throws. -/
def stripPfx (rawName : String) (pfx : Option String) : Except Errlop String :=
  match pfx with
  | some p =>
      if truthy p then
        if p.data.isPrefixOf rawName.data then
          .ok ⟨rawName.data.drop p.data.length⟩
        else
          .error (Errlop.base ("The plugin's name of [" ++ rawName ++
            "] must begin with the prefix [" ++ p ++ "]."))
      else .ok rawName
  | none => .ok rawName

/-- Name derivation of the constructor: optional prefix stripping, then
the alphanumeric test on the remainder. -/
def deriveName (rawName : String) (pfx : Option String) :
    Except Errlop String :=
  match stripPfx rawName pfx with
  | .error e => .error e
  | .ok nm =>
      if alphanumericTest nm then .ok nm
      else .error (Errlop.base ("The plugin's name of [" ++ nm ++
        "] must be alphanumeric to avoid common naming problems."))

/-- The candidate handed to `resolve`:
`opts.PluginClass || require(this.pluginPath as string)`. -/
def candidateOf (env : Env) (opts : PluginLoaderOptions) : JSValue :=
  match opts.pluginClass with
  | some c => c
  | none => env.moduleLoad opts.pluginPath

/-- The loader state assembled by the constructor before validation. -/
def mkState (opts : PluginLoaderOptions) (pd : PackageData)
    (pluginName : String) (pluginClass : JSValue) : PluginLoader :=
  { keyword := opts.keyword
    pfx := opts.pfx
    versions := opts.versions.getD []
    pluginPath := opts.pluginPath
    packageData := pd
    pluginName := pluginName
    pluginClass := pluginClass
    basePlugin := opts.basePlugin }

/-- The whole constructor of `PluginLoader`, in the source's order:
acquire the package data, reject an absent or empty `name` field,
fill in defaults, derive the plugin name, resolve the plugin class,
then validate, returning the constructed state or the first error
thrown. -/
def construct (env : Env) (opts : PluginLoaderOptions) :
    Except Errlop PluginLoader :=
  match acquirePackageData env opts with
  | .error e => .error e
  | .ok pdIn =>
      if (pdIn.name.getD "") = "" then
        .error (Errlop.base
          "The plugin's package data must include a \"name\" field.")
      else
        match deriveName (pdIn.name.getD "") opts.pfx with
        | .error e => .error e
        | .ok nm =>
            match resolve env.app opts.pluginPath nm opts.basePlugin
                (candidateOf env opts) with
            | .error e => .error e
            | .ok cls =>
                let st := mkState opts (defaultData pdIn) nm cls
                match aggregate opts.pluginPath (validationErrors env st) with
                | some e => .error e
                | none => .ok st

/-- A constructed plugin instance, as far as `create` inspects one: its
self-reported `name` (absent when the instance declares none) and an
opaque payload keeping distinct instances distinct. -/
structure PluginInstance where
  name : Option String
  payload : Nat
deriving DecidableEq, Repr

/-- The outcome of `new PluginClass(...args)`: the constructor either
throws or returns an instance. -/
inductive CtorResult where
  | throws (e : Errlop)
  | returns (inst : PluginInstance)
deriving DecidableEq, Repr

/-- The `create` method given the outcome of the constructor call: a
thrown construction error is re-wrapped as the instantiation failure;
a returned instance with a truthy `name` differing from the derived
plugin name raises the mismatch error, which the surrounding catch
re-wraps the same way; otherwise the instance is returned unchanged. -/
def create (st : PluginLoader) (result : CtorResult) :
    Except Errlop PluginInstance :=
  match result with
  | .throws e =>
      .error (Errlop.chain ("Plugin [" ++
        locOrName st.pluginPath st.pluginName ++ "] failed to instantiate.")
        e)
  | .returns inst =>
      let n := inst.name.getD ""
      if truthyOpt inst.name && n != st.pluginName then
        .error (Errlop.chain ("Plugin [" ++
          locOrName st.pluginPath st.pluginName ++ "] failed to instantiate.")
          (Errlop.base ("The plugin instance's \"name\" of [" ++ n ++
            "] must match the specified name of [" ++ st.pluginName ++ "].")))
      else
        .ok inst

/-- Substring containment between strings, at the character level: the
small string's characters occur contiguously inside the big string's. -/
def ContainsSub (big small : String) : Prop :=
  small.data <:+: big.data

instance (big small : String) : Decidable (ContainsSub big small) :=
  List.decidableInfix small.data big.data

theorem containsSub_refl (s : String) : ContainsSub s s :=
  List.infix_refl s.data

theorem containsSub_append_left (pre big small : String)
    (h : ContainsSub big small) : ContainsSub (pre ++ big) small := by
  obtain ⟨s, t, hst⟩ := h
  exact ⟨pre.data ++ s, t, by rw [String.data_append, ← hst]; simp⟩

theorem containsSub_append_right (big post small : String)
    (h : ContainsSub big small) : ContainsSub (big ++ post) small := by
  obtain ⟨s, t, hst⟩ := h
  exact ⟨s, t ++ post.data, by rw [String.data_append, ← hst]; simp⟩

theorem joinStacks_contains {l : List String} {s : String} (h : s ∈ l) :
    ContainsSub (joinStacks l) s := by
  induction l with
  | nil => cases h
  | cons a t ih =>
      cases t with
      | nil =>
          rcases List.mem_cons.mp h with heq | hmem
          · subst heq; exact containsSub_refl _
          · cases hmem
      | cons b t' =>
          rcases List.mem_cons.mp h with heq | hmem
          · subst heq
            exact containsSub_append_right _ (joinStacks (b :: t')) _
              (containsSub_append_right _ "\n" _ (containsSub_refl _))
          · exact containsSub_append_left (a ++ "\n") (joinStacks (b :: t')) s
              (ih hmem)

theorem aggCause_stack_contains {errors : List Errlop} {e : Errlop}
    (h : e ∈ errors) : ContainsSub (aggCause errors).stack e.stack := by
  cases errors with
  | nil => cases h
  | cons a t =>
      cases t with
      | nil =>
          rcases List.mem_cons.mp h with heq | hmem
          · subst heq; exact containsSub_refl _
          · cases hmem
      | cons b t' =>
          show ContainsSub (joinStacks ((a :: b :: t').map Errlop.stack)) e.stack
          exact joinStacks_contains (List.mem_map_of_mem Errlop.stack h)

theorem aggregate_stack_contains {path : Option String} {errors : List Errlop}
    (h : errors ≠ []) :
    ∃ top, aggregate path errors = some top ∧
      top.message = "Plugin [" ++ jsStr path ++ "] is unsupported." ∧
      ∀ v ∈ errors, ContainsSub top.stack v.stack := by
  cases errors with
  | nil => exact absurd rfl h
  | cons a t =>
      refine ⟨Errlop.chain ("Plugin [" ++ jsStr path ++ "] is unsupported.")
        (aggCause (a :: t)), rfl, rfl, ?_⟩
      intro v hv
      show ContainsSub (("Plugin [" ++ jsStr path ++ "] is unsupported.") ++
        "\n↳ " ++ (aggCause (a :: t)).stack) v.stack
      exact containsSub_append_left _ _ _ (aggCause_stack_contains hv)

theorem construct_validation (env : Env) (opts : PluginLoaderOptions)
    (pdIn : PackageDataInput) (nm : String) (cls : JSValue)
    (hacq : acquirePackageData env opts = .ok pdIn)
    (hname : pdIn.name.getD "" ≠ "")
    (hder : deriveName (pdIn.name.getD "") opts.pfx = .ok nm)
    (hres : resolve env.app opts.pluginPath nm opts.basePlugin
      (candidateOf env opts) = .ok cls) :
    construct env opts =
      match aggregate opts.pluginPath
          (validationErrors env (mkState opts (defaultData pdIn) nm cls)) with
      | some e => .error e
      | none => .ok (mkState opts (defaultData pdIn) nm cls) := by
  unfold construct
  rw [hacq]
  simp only [hname, hder, hres, if_false, reduceCtorEq, ite_false]

theorem construct_deriveName_error (env : Env) (opts : PluginLoaderOptions)
    (pdIn : PackageDataInput) (e : Errlop)
    (hacq : acquirePackageData env opts = .ok pdIn)
    (hname : pdIn.name.getD "" ≠ "")
    (hder : deriveName (pdIn.name.getD "") opts.pfx = .error e) :
    construct env opts = .error e := by
  unfold construct
  rw [hacq]
  simp [hname, hder]

theorem lookupStr_cons_ne (ranges : List (String × String))
    (thing r k : String) (h : thing ≠ k) :
    lookupStr ((thing, r) :: ranges) k = lookupStr ranges k := by
  unfold lookupStr
  rw [List.find?_cons_of_neg]
  simp [h]

theorem checkVersions_cons_unreported (sat : String → String → Bool)
    (versions ranges : List (String × String)) (group thing r : String)
    (h : lookupStr versions thing = none) :
    checkVersions sat versions ((thing, r) :: ranges) group =
      checkVersions sat versions ranges group := by
  have hall : ∀ vp ∈ versions, vp.1 ≠ thing := by
    intro vp hvp
    intro hk
    unfold lookupStr at h
    rcases hfind : List.find? (fun p => p.1 == thing) versions with _ | p
    · have := List.find?_eq_none.mp hfind vp hvp
      simp [hk] at this
    · rw [hfind] at h; simp at h
  induction versions with
  | nil => rfl
  | cons vp vs ih =>
      have hvp : vp.1 ≠ thing := hall vp (List.mem_cons_self vp vs)
      have htail : ∀ q ∈ vs, q.1 ≠ thing := fun q hq =>
        hall q (List.mem_cons_of_mem vp hq)
      have htail' : lookupStr vs thing = none := by
        unfold lookupStr
        rw [List.find?_eq_none.mpr]
        intro q hq
        simp [htail q hq]
      have hhead : versionEntryError sat ((thing, r) :: ranges) group vp =
          versionEntryError sat ranges group vp := by
        unfold versionEntryError
        rw [lookupStr_cons_ne ranges thing r vp.1 (fun hk => hvp hk.symm)]
      unfold checkVersions
      rw [List.filterMap_cons, List.filterMap_cons, hhead]
      have ihr := ih htail' htail
      unfold checkVersions at ihr
      rw [ihr]

/-- Claim C5: for every configured prefix and raw metadata name of the
form prefix-plus-rest with alphanumeric rest, the derived plugin name is
exactly the rest; and a raw name that does not begin with the prefix
(ordinal, character-wise match) makes construction fail with the
prefix-mismatch name error, whatever happens later in the pipeline. -/
theorem claim5_name_derivation (env : Env) (opts : PluginLoaderOptions)
    (pdIn : PackageDataInput) (p rest : String) :
    (alphanumericTest rest = true →
      deriveName (p ++ rest) (some p) = .ok rest) ∧
    (acquirePackageData env opts = .ok pdIn →
      pdIn.name.getD "" ≠ "" →
      opts.pfx = some p →
      p.data.isPrefixOf (pdIn.name.getD "").data = false →
      construct env opts = .error (Errlop.base
        ("The plugin's name of [" ++ pdIn.name.getD "" ++
          "] must begin with the prefix [" ++ p ++ "]."))) := by
  constructor
  · intro halpha
    have hstrip : stripPfx (p ++ rest) (some p) = .ok rest := by
      by_cases htr : truthy p = true
      · have hpre : p.data.isPrefixOf (p ++ rest).data = true := by
          rw [String.data_append]
          exact List.isPrefixOf_iff_prefix.mpr (List.prefix_append p.data rest.data)
        have hdrop : List.drop p.data.length (p ++ rest).data = rest.data := by
          rw [String.data_append, List.drop_left]
        unfold stripPfx
        simp [htr, hpre, hdrop]
      · have hp : p.data = [] := by
          unfold truthy at htr
          simpa using htr
        have hpe : p = "" := by
          cases p; simp_all
        subst hpe
        unfold stripPfx
        simp [truthy]
    unfold deriveName
    rw [hstrip]
    simp [halpha]
  · intro hacq hname hpfx hnp
    have hptr : truthy p = true := by
      by_contra htr
      have hp : p.data = [] := by
        unfold truthy at htr
        simpa using htr
      rw [hp] at hnp
      simp [List.isPrefixOf] at hnp
    have hstrip : stripPfx (pdIn.name.getD "") (some p) = .error (Errlop.base
        ("The plugin's name of [" ++ pdIn.name.getD "" ++
          "] must begin with the prefix [" ++ p ++ "].")) := by
      unfold stripPfx
      simp [hptr, hnp]
    have hder : deriveName (pdIn.name.getD "") opts.pfx = .error (Errlop.base
        ("The plugin's name of [" ++ pdIn.name.getD "" ++
          "] must begin with the prefix [" ++ p ++ "].")) := by
      rw [hpfx]
      unfold deriveName
      rw [hstrip]
    exact construct_deriveName_error env opts pdIn _ hacq hname hder

/-- Witness for claim C5 at the scenario of the repository's tests:
prefix "my-", raw name "my-manualplugin", derived name "manualplugin";
and prefix "our-" against raw name "my-manualplugin" failing. -/
theorem claim5_name_derivation_witness :
    deriveName ("my-" ++ "manualplugin") (some "my-") = .ok "manualplugin" ∧
    construct
      { sat := fun _ _ => true, app := fun _ _ => .returns ⟨true, 0⟩,
        platform := "linux", processVersions := [],
        manifest := fun _ => ⟨none, none, none, none, none⟩,
        moduleLoad := fun _ => ⟨false, 0⟩ }
      { keyword := none, pfx := some "our-", versions := none,
        pluginPath := none,
        packageData := some ⟨some "my-manualplugin", none, none, none, none⟩,
        pluginClass := some ⟨true, 1⟩, basePlugin := ⟨true, 2⟩ } =
      .error (Errlop.base
        ("The plugin's name of [my-manualplugin] must begin with the prefix [our-].")) := by
  constructor
  · exact (claim5_name_derivation
      { sat := fun _ _ => true, app := fun _ _ => .returns ⟨true, 0⟩,
        platform := "linux", processVersions := [],
        manifest := fun _ => ⟨none, none, none, none, none⟩,
        moduleLoad := fun _ => ⟨false, 0⟩ }
      { keyword := none, pfx := some "our-", versions := none,
        pluginPath := none,
        packageData := some ⟨some "my-manualplugin", none, none, none, none⟩,
        pluginClass := some ⟨true, 1⟩, basePlugin := ⟨true, 2⟩ }
      ⟨some "my-manualplugin", none, none, none, none⟩
      "my-" "manualplugin").1 (by decide)
  · exact (claim5_name_derivation _ _
      ⟨some "my-manualplugin", none, none, none, none⟩
      "our-" "x").2 rfl (by decide) rfl (by decide)

/-- Claim C6: a remainder (after optional prefix stripping) containing
any character outside the class a-z, 0-9 — uppercase included, no case
folding happens — makes construction fail with the alphanumeric name
error. -/
theorem claim6_alphanumeric_failure (env : Env) (opts : PluginLoaderOptions)
    (pdIn : PackageDataInput) (nm : String)
    (hacq : acquirePackageData env opts = .ok pdIn)
    (hname : pdIn.name.getD "" ≠ "")
    (hstrip : stripPfx (pdIn.name.getD "") opts.pfx = .ok nm)
    (hbad : nm.data.any (fun c => !isAlphaNum c) = true) :
    construct env opts = .error (Errlop.base
      ("The plugin's name of [" ++ nm ++
        "] must be alphanumeric to avoid common naming problems.")) := by
  have halpha : alphanumericTest nm = false := by
    unfold alphanumericTest
    rcases List.any_eq_true.mp hbad with ⟨c, hc, hnc⟩
    have : nm.data.all isAlphaNum = false := by
      rcases hall : nm.data.all isAlphaNum with _ | _
      · rfl
      · have := List.all_eq_true.mp hall c hc
        simp [this] at hnc
    rw [this, Bool.and_false]
  have hder : deriveName (pdIn.name.getD "") opts.pfx = .error (Errlop.base
      ("The plugin's name of [" ++ nm ++
        "] must be alphanumeric to avoid common naming problems.")) := by
    unfold deriveName
    rw [hstrip]
    simp [halpha]
  exact construct_deriveName_error env opts pdIn _ hacq hname hder

/-- Witness for claim C6: raw name "Bad" (an uppercase letter) with no
prefix fails construction with the alphanumeric name error. -/
theorem claim6_alphanumeric_failure_witness :
    construct
      { sat := fun _ _ => true, app := fun _ _ => .returns ⟨true, 0⟩,
        platform := "linux", processVersions := [],
        manifest := fun _ => ⟨none, none, none, none, none⟩,
        moduleLoad := fun _ => ⟨false, 0⟩ }
      { keyword := none, pfx := none, versions := none, pluginPath := none,
        packageData := some ⟨some "Bad", none, none, none, none⟩,
        pluginClass := some ⟨true, 1⟩, basePlugin := ⟨true, 2⟩ } =
      .error (Errlop.base
        ("The plugin's name of [Bad] must be alphanumeric to avoid common naming problems.")) :=
  claim6_alphanumeric_failure _ _ ⟨some "Bad", none, none, none, none⟩ "Bad"
    rfl (by decide) rfl (by decide)

/-- Claim C7: class resolution is the identity on class-shaped inputs:
a candidate that already passes the shape test is returned itself, and
the result does not depend on the invocation oracle at all — the
candidate is never invoked as a function. -/
theorem claim7_direct_resolution (app : JSValue → JSValue → InvokeRes)
    (path : Option String) (nm : String) (basePlugin v : JSValue)
    (h : v.isClassShaped = true) :
    resolve app path nm basePlugin v = .ok v := by
  unfold resolve
  simp [h]

/-- Witness for claim C7: a class-shaped value resolves to itself even
under an invocation oracle that always throws. -/
theorem claim7_direct_resolution_witness :
    resolve (fun _ _ => .throws (Errlop.base "boom")) none "plug"
      ⟨true, 7⟩ ⟨true, 3⟩ = .ok ⟨true, 3⟩ :=
  claim7_direct_resolution (fun _ _ => .throws (Errlop.base "boom")) none
    "plug" ⟨true, 7⟩ ⟨true, 3⟩ rfl

/-- Claim C2: during class resolution of a candidate failing the shape
test, the candidate is invoked with the base plugin as sole argument;
a thrown error matching "Class constructor ... cannot be invoked without
new" resolves to the original, pre-invocation candidate; any other
thrown error fails resolution with the indirect-resolution error
wrapping it; a returned value failing the shape test fails resolution
with the not-detectable-as-a-class error. -/
theorem claim2_indirect_resolution (app : JSValue → JSValue → InvokeRes)
    (path : Option String) (nm : String) (basePlugin direct : JSValue)
    (hshape : direct.isClassShaped = false) :
    (∀ e, app direct basePlugin = .throws e →
      classCtorRegexMatch e.message = true →
      resolve app path nm basePlugin direct = .ok direct) ∧
    (∀ e, app direct basePlugin = .throws e →
      classCtorRegexMatch e.message = false →
      resolve app path nm basePlugin direct = .error (Errlop.chain
        ("The indirect resolution of the PluginClass failed." ++
          "\nPlugin: " ++ locOrName path nm) e)) ∧
    (∀ indirect, app direct basePlugin = .returns indirect →
      indirect.isClassShaped = false →
      resolve app path nm basePlugin direct = .error (Errlop.base
        ("The resolved PluginClass was not detectable as a class." ++
          "\nPlugin: " ++ locOrName path nm))) := by
  refine ⟨?_, ?_, ?_⟩
  · intro e happ hre
    unfold resolve
    rw [happ]
    simp [hshape, hre]
  · intro e happ hre
    unfold resolve
    rw [happ]
    simp [hshape, hre, loaderError, mkErrlop]
  · intro indirect happ hind
    unfold resolve
    rw [happ]
    simp [hshape, hind, loaderError, mkErrlop]

/-- Witness for claim C2: a non-class-shaped candidate whose invocation
throws the class-constructor error resolves to the candidate itself
(false-negative fallback), at a concrete invocation oracle. -/
theorem claim2_indirect_resolution_witness :
    resolve (fun _ _ => .throws (Errlop.base
        "Class constructor MyPlugin cannot be invoked without 'new'"))
      none "plug" ⟨true, 5⟩ ⟨false, 0⟩ = .ok ⟨false, 0⟩ :=
  (claim2_indirect_resolution (fun _ _ => .throws (Errlop.base
      "Class constructor MyPlugin cannot be invoked without 'new'"))
    none "plug" ⟨true, 5⟩ ⟨false, 0⟩ rfl).1
    (Errlop.base "Class constructor MyPlugin cannot be invoked without 'new'")
    rfl (by decide)

/-- Claim C4: `create` wraps a constructor throw as the instantiation
failure naming the plugin's location-or-name with the original error as
cause; an instance with a truthy self-reported name differing from the
derived plugin name makes `create` fail with the mismatch message
(containing both values) wrapped the same way; an instance without a
self-reported name is returned unchanged — no violation and no
back-filling of the name. -/
theorem claim4_create_identity (st : PluginLoader) (inst : PluginInstance)
    (e : Errlop) (n : String) :
    (inst.name = some n → truthy n = true → n ≠ st.pluginName →
      create st (.returns inst) = .error (Errlop.chain
        ("Plugin [" ++ locOrName st.pluginPath st.pluginName ++
          "] failed to instantiate.")
        (Errlop.base ("The plugin instance's \"name\" of [" ++ n ++
          "] must match the specified name of [" ++ st.pluginName ++ "].")))) ∧
    (inst.name = none → create st (.returns inst) = .ok inst) ∧
    (create st (.throws e) = .error (Errlop.chain
      ("Plugin [" ++ locOrName st.pluginPath st.pluginName ++
        "] failed to instantiate.") e)) := by
  refine ⟨?_, ?_, rfl⟩
  · intro hn htr hne
    unfold create
    simp [hn, truthyOpt, htr, hne]
  · intro hn
    unfold create
    simp [hn, truthyOpt, truthy]

/-- Witness for claim C4 at the scenario of the repository's tests: an
instance reporting the name "manualplugin" under a loader whose derived
name is "inconsistent" fails with the mismatch message; an instance
reporting no name is returned unchanged. -/
theorem claim4_create_identity_witness :
    create
      { keyword := none, pfx := none, versions := [], pluginPath := none,
        packageData := ⟨"inconsistent", [], [], [], []⟩,
        pluginName := "inconsistent", pluginClass := ⟨true, 0⟩,
        basePlugin := ⟨true, 1⟩ }
      (.returns ⟨some "manualplugin", 0⟩) = .error (Errlop.chain
        "Plugin [inconsistent] failed to instantiate."
        (Errlop.base
          "The plugin instance's \"name\" of [manualplugin] must match the specified name of [inconsistent].")) ∧
    create
      { keyword := none, pfx := none, versions := [], pluginPath := none,
        packageData := ⟨"inconsistent", [], [], [], []⟩,
        pluginName := "inconsistent", pluginClass := ⟨true, 0⟩,
        basePlugin := ⟨true, 1⟩ }
      (.returns ⟨none, 3⟩) = .ok ⟨none, 3⟩ := by
  constructor
  · exact (claim4_create_identity
      { keyword := none, pfx := none, versions := [], pluginPath := none,
        packageData := ⟨"inconsistent", [], [], [], []⟩,
        pluginName := "inconsistent", pluginClass := ⟨true, 0⟩,
        basePlugin := ⟨true, 1⟩ }
      ⟨some "manualplugin", 0⟩ (Errlop.base "x") "manualplugin").1
      rfl (by decide) (by decide)
  · exact (claim4_create_identity
      { keyword := none, pfx := none, versions := [], pluginPath := none,
        packageData := ⟨"inconsistent", [], [], [], []⟩,
        pluginName := "inconsistent", pluginClass := ⟨true, 0⟩,
        basePlugin := ⟨true, 1⟩ }
      ⟨none, 3⟩ (Errlop.base "x") "y").2.1 rfl

/-- Claim C9: a configuration supplying neither package data nor a
truthy plugin path fails construction with the either-or configuration
error; and acquired metadata whose name field is absent or empty fails
construction with the name-field configuration error. -/
theorem claim9_configuration_errors (env : Env) (opts : PluginLoaderOptions)
    (pdIn : PackageDataInput) :
    (opts.packageData = none → truthyOpt opts.pluginPath = false →
      construct env opts = .error (Errlop.base
        "Either the plugin's package data or the plugin's path must be specified.")) ∧
    (acquirePackageData env opts = .ok pdIn → pdIn.name.getD "" = "" →
      construct env opts = .error (Errlop.base
        "The plugin's package data must include a \"name\" field.")) := by
  constructor
  · intro hpd hpath
    have hacq : acquirePackageData env opts = .error (Errlop.base
        "Either the plugin's package data or the plugin's path must be specified.") := by
      unfold acquirePackageData
      rw [hpd]
      simp [hpath]
    unfold construct
    rw [hacq]
  · intro hacq hname
    unfold construct
    rw [hacq]
    simp [hname]

/-- Witness for claim C9: no package data and no plugin path; and a
plugin path whose manifest carries no name field. -/
theorem claim9_configuration_errors_witness :
    construct
      { sat := fun _ _ => true, app := fun _ _ => .returns ⟨true, 0⟩,
        platform := "linux", processVersions := [],
        manifest := fun _ => ⟨none, none, none, none, none⟩,
        moduleLoad := fun _ => ⟨false, 0⟩ }
      { keyword := none, pfx := none, versions := none, pluginPath := none,
        packageData := none, pluginClass := none, basePlugin := ⟨true, 2⟩ } =
      .error (Errlop.base
        "Either the plugin's package data or the plugin's path must be specified.") ∧
    construct
      { sat := fun _ _ => true, app := fun _ _ => .returns ⟨true, 0⟩,
        platform := "linux", processVersions := [],
        manifest := fun _ => ⟨none, none, none, none, none⟩,
        moduleLoad := fun _ => ⟨false, 0⟩ }
      { keyword := none, pfx := none, versions := none,
        pluginPath := some "/plugins/x", packageData := none,
        pluginClass := none, basePlugin := ⟨true, 2⟩ } =
      .error (Errlop.base
        "The plugin's package data must include a \"name\" field.") := by
  constructor
  · exact (claim9_configuration_errors _
      { keyword := none, pfx := none, versions := none, pluginPath := none,
        packageData := none, pluginClass := none, basePlugin := ⟨true, 2⟩ }
      ⟨none, none, none, none, none⟩).1 rfl rfl
  · exact (claim9_configuration_errors _
      { keyword := none, pfx := none, versions := none,
        pluginPath := some "/plugins/x", packageData := none,
        pluginClass := none, basePlugin := ⟨true, 2⟩ }
      ⟨none, none, none, none, none⟩).2 rfl rfl

/-- Claim C10: compatibility validation walks the keys of the
environment's version map, so a declared requirement whose key the
environment does not report never yields a violation, whatever its
range: adding such an entry to the metadata's engines (checked against
the runtime's version set) or peer dependencies (checked against the
loader's version map) leaves the collected violations unchanged. -/
theorem claim10_unreported_key_passes (env : Env) (st : PluginLoader)
    (thing r : String) :
    (lookupStr env.processVersions thing = none →
      validationErrors env
        { st with packageData :=
            { st.packageData with engines := (thing, r) :: st.packageData.engines } } =
        validationErrors env st) ∧
    (lookupStr st.versions thing = none →
      validationErrors env
        { st with packageData :=
            { st.packageData with peerDependencies :=
                (thing, r) :: st.packageData.peerDependencies } } =
        validationErrors env st) := by
  constructor
  · intro h
    unfold validationErrors
    simp only
    rw [checkVersions_cons_unreported env.sat env.processVersions
      st.packageData.engines "engine" thing r h]
  · intro h
    unfold validationErrors
    simp only
    rw [checkVersions_cons_unreported env.sat st.versions
      st.packageData.peerDependencies "peer dependency" thing r h]

/-- Witness for claim C10: an engines entry "iojs" with an unsatisfiable
range changes nothing when the runtime does not report an "iojs"
version, and a peer-dependency entry likewise. -/
theorem claim10_unreported_key_passes_witness :
    validationErrors
      { sat := fun _ _ => false, app := fun _ _ => .returns ⟨true, 0⟩,
        platform := "linux", processVersions := [("node", "20.0.0")],
        manifest := fun _ => ⟨none, none, none, none, none⟩,
        moduleLoad := fun _ => ⟨false, 0⟩ }
      { keyword := none, pfx := none, versions := [], pluginPath := none,
        packageData := ⟨"plug", [], [], [("iojs", "^3.0.0")], []⟩,
        pluginName := "plug", pluginClass := ⟨true, 0⟩,
        basePlugin := ⟨true, 1⟩ } =
    validationErrors
      { sat := fun _ _ => false, app := fun _ _ => .returns ⟨true, 0⟩,
        platform := "linux", processVersions := [("node", "20.0.0")],
        manifest := fun _ => ⟨none, none, none, none, none⟩,
        moduleLoad := fun _ => ⟨false, 0⟩ }
      { keyword := none, pfx := none, versions := [], pluginPath := none,
        packageData := ⟨"plug", [], [], [], []⟩, pluginName := "plug",
        pluginClass := ⟨true, 0⟩, basePlugin := ⟨true, 1⟩ } :=
  (claim10_unreported_key_passes
    { sat := fun _ _ => false, app := fun _ _ => .returns ⟨true, 0⟩,
      platform := "linux", processVersions := [("node", "20.0.0")],
      manifest := fun _ => ⟨none, none, none, none, none⟩,
      moduleLoad := fun _ => ⟨false, 0⟩ }
    { keyword := none, pfx := none, versions := [], pluginPath := none,
      packageData := ⟨"plug", [], [], [], []⟩, pluginName := "plug",
      pluginClass := ⟨true, 0⟩, basePlugin := ⟨true, 1⟩ }
    "iojs" "^3.0.0").1 (by decide)

/-- Claim C8: an empty declared platform list never contributes a
violation, whatever the current platform; a non-empty declared platform
list not containing the current platform contributes exactly one
violation citing the current platform and the declared list, and
construction fails with an aggregated error whose full text contains
that violation. -/
theorem claim8_platform_policy (env : Env) (opts : PluginLoaderOptions)
    (pdIn : PackageDataInput) (nm : String) (cls : JSValue)
    (hacq : acquirePackageData env opts = .ok pdIn)
    (hname : pdIn.name.getD "" ≠ "")
    (hder : deriveName (pdIn.name.getD "") opts.pfx = .ok nm)
    (hres : resolve env.app opts.pluginPath nm opts.basePlugin
      (candidateOf env opts) = .ok cls) :
    (∀ plat : String, platformErrors plat [] = []) ∧
    ((defaultData pdIn).platforms ≠ [] →
      (defaultData pdIn).platforms.contains env.platform = false →
      platformErrors env.platform (defaultData pdIn).platforms =
        [Errlop.base ("platform [" ++ env.platform ++
          "] unsupported by plugin's engines [" ++
          joinComma (defaultData pdIn).platforms ++ "]")] ∧
      ∃ e, construct env opts = .error e ∧
        ContainsSub e.stack ("platform [" ++ env.platform ++
          "] unsupported by plugin's engines [" ++
          joinComma (defaultData pdIn).platforms ++ "]")) := by
  constructor
  · intro plat
    rfl
  · intro hplat hcont
    have hempty : (defaultData pdIn).platforms.isEmpty = false := by
      cases hP : (defaultData pdIn).platforms with
      | nil => exact absurd hP hplat
      | cons a t => rfl
    have hperr : platformErrors env.platform (defaultData pdIn).platforms =
        [Errlop.base ("platform [" ++ env.platform ++
          "] unsupported by plugin's engines [" ++
          joinComma (defaultData pdIn).platforms ++ "]")] := by
      unfold platformErrors
      rw [hempty, hcont]
      simp
    refine ⟨hperr, ?_⟩
    have hmem : Errlop.base ("platform [" ++ env.platform ++
        "] unsupported by plugin's engines [" ++
        joinComma (defaultData pdIn).platforms ++ "]") ∈
        validationErrors env (mkState opts (defaultData pdIn) nm cls) := by
      unfold validationErrors
      simp only [mkState]
      rw [hperr]
      simp [List.mem_append]
    have hne : validationErrors env (mkState opts (defaultData pdIn) nm cls) ≠ [] :=
      List.ne_nil_of_mem hmem
    obtain ⟨top, hagg, _, hcontains⟩ := aggregate_stack_contains hne
    refine ⟨top, ?_, ?_⟩
    · rw [construct_validation env opts pdIn nm cls hacq hname hder hres, hagg]
    · exact hcontains _ hmem

/-- Witness for claim C8: declared platforms ["win32"] under current
platform "linux", with an otherwise passing loader: one platform
violation and a failed construction whose text carries it. -/
theorem claim8_platform_policy_witness :
    platformErrors "linux" [] = [] ∧
    ∃ e, construct
      { sat := fun _ _ => true, app := fun _ _ => .returns ⟨true, 0⟩,
        platform := "linux", processVersions := [],
        manifest := fun _ => ⟨none, none, none, none, none⟩,
        moduleLoad := fun _ => ⟨false, 0⟩ }
      { keyword := none, pfx := none, versions := none, pluginPath := none,
        packageData := some ⟨some "plug", none, some ["win32"], none, none⟩,
        pluginClass := some ⟨true, 1⟩, basePlugin := ⟨true, 2⟩ } = .error e ∧
      ContainsSub e.stack
        "platform [linux] unsupported by plugin's engines [win32]" := by
  have h := claim8_platform_policy
    { sat := fun _ _ => true, app := fun _ _ => .returns ⟨true, 0⟩,
      platform := "linux", processVersions := [],
      manifest := fun _ => ⟨none, none, none, none, none⟩,
      moduleLoad := fun _ => ⟨false, 0⟩ }
    { keyword := none, pfx := none, versions := none, pluginPath := none,
      packageData := some ⟨some "plug", none, some ["win32"], none, none⟩,
      pluginClass := some ⟨true, 1⟩, basePlugin := ⟨true, 2⟩ }
    ⟨some "plug", none, some ["win32"], none, none⟩ "plug" ⟨true, 1⟩
    rfl (by decide) rfl rfl
  exact ⟨h.1 "linux", (h.2 (by decide) (by decide)).2⟩

/-- Counterexample to claim C1 as stated: the top-level validation
failure interpolates only `this.pluginPath` into its message.  With
package data supplied directly (no plugin path), the message is
"Plugin [undefined] is unsupported." — it contains neither a location
(none exists) nor the derived plugin name "manualplugin", although the
claim requires the location-or-name to be included.  The cause chain,
by contrast, is exactly as the claim describes. -/
theorem claim1_counterexample :
    construct
      { sat := fun _ _ => true, app := fun _ _ => .returns ⟨true, 0⟩,
        platform := "linux", processVersions := [],
        manifest := fun _ => ⟨none, none, none, none, none⟩,
        moduleLoad := fun _ => ⟨false, 0⟩ }
      { keyword := some "special", pfx := none, versions := none,
        pluginPath := none,
        packageData := some ⟨some "manualplugin", some [], none, none, none⟩,
        pluginClass := some ⟨true, 1⟩, basePlugin := ⟨true, 2⟩ } =
      .error (Errlop.chain "Plugin [undefined] is unsupported."
        (Errlop.base "keyword [special] missing from the plugin's keywords []")) ∧
    ¬ ContainsSub "Plugin [undefined] is unsupported." "manualplugin" :=
  ⟨rfl, by decide⟩

/-- Claim C1 (amended): when compatibility validation collects one or
more violations, construction fails with a top-level error whose
message reads "Plugin [location] is unsupported." where the location is
the configured plugin path interpolated as a template literal (the
string "undefined" when absent — the derived name is not substituted),
wrapping a single cause: the violation itself when exactly one was
recorded, otherwise a synthesized error whose message is every
violation's full text joined by newlines. -/
theorem claim1_unsupported_error (env : Env) (opts : PluginLoaderOptions)
    (pdIn : PackageDataInput) (nm : String) (cls : JSValue)
    (hacq : acquirePackageData env opts = .ok pdIn)
    (hname : pdIn.name.getD "" ≠ "")
    (hder : deriveName (pdIn.name.getD "") opts.pfx = .ok nm)
    (hres : resolve env.app opts.pluginPath nm opts.basePlugin
      (candidateOf env opts) = .ok cls)
    (hne : validationErrors env (mkState opts (defaultData pdIn) nm cls) ≠ []) :
    ∃ e, construct env opts = .error e ∧
      e.message = "Plugin [" ++ jsStr opts.pluginPath ++ "] is unsupported." ∧
      (∀ v, validationErrors env (mkState opts (defaultData pdIn) nm cls) = [v] →
        e.parent = some v) ∧
      (1 < (validationErrors env (mkState opts (defaultData pdIn) nm cls)).length →
        e.parent = some (Errlop.base (joinStacks
          ((validationErrors env (mkState opts (defaultData pdIn) nm cls)).map
            Errlop.stack)))) := by
  rcases herrs : validationErrors env (mkState opts (defaultData pdIn) nm cls)
    with _ | ⟨a, t⟩
  · exact absurd herrs hne
  · refine ⟨Errlop.chain ("Plugin [" ++ jsStr opts.pluginPath ++
      "] is unsupported.") (aggCause (a :: t)), ?_, rfl, ?_, ?_⟩
    · rw [construct_validation env opts pdIn nm cls hacq hname hder hres, herrs]
      rfl
    · intro v hv
      injection hv with h1 h2
      subst h1
      subst h2
      rfl
    · intro hlen
      cases t with
      | nil => simp at hlen
      | cons b t' => rfl

/-- Witness for claim C1 (amended): a loader with package data only and
one failing keyword policy fails with the amended message shape. -/
theorem claim1_unsupported_error_witness :
    ∃ e, construct
      { sat := fun _ _ => true, app := fun _ _ => .returns ⟨true, 0⟩,
        platform := "linux", processVersions := [],
        manifest := fun _ => ⟨none, none, none, none, none⟩,
        moduleLoad := fun _ => ⟨false, 0⟩ }
      { keyword := some "special", pfx := none, versions := none,
        pluginPath := none,
        packageData := some ⟨some "manualplugin", some [], none, none, none⟩,
        pluginClass := some ⟨true, 1⟩, basePlugin := ⟨true, 2⟩ } = .error e ∧
      e.message = "Plugin [undefined] is unsupported." := by
  obtain ⟨e, h1, h2, _⟩ := claim1_unsupported_error
    { sat := fun _ _ => true, app := fun _ _ => .returns ⟨true, 0⟩,
      platform := "linux", processVersions := [],
      manifest := fun _ => ⟨none, none, none, none, none⟩,
      moduleLoad := fun _ => ⟨false, 0⟩ }
    { keyword := some "special", pfx := none, versions := none,
      pluginPath := none,
      packageData := some ⟨some "manualplugin", some [], none, none, none⟩,
      pluginClass := some ⟨true, 1⟩, basePlugin := ⟨true, 2⟩ }
    ⟨some "manualplugin", some [], none, none, none⟩ "manualplugin" ⟨true, 1⟩
    rfl (by decide) rfl rfl (by decide)
  exact ⟨e, h1, h2⟩

/-- A per-entry error is produced exactly when the entry violates. -/
theorem versionEntryError_isSome (sat : String → String → Bool)
    (ranges : List (String × String)) (group : String)
    (vp : String × String) :
    (versionEntryError sat ranges group vp).isSome =
      versionEntryViolates sat ranges vp := by
  unfold versionEntryError versionEntryViolates
  cases lookupStr ranges vp.1 with
  | none => rfl
  | some range =>
      by_cases hc : (truthy range && !(sat (stripFlag vp.2) range)) = true
      · simp [hc]
      · simp [hc]

/-- Exact per-entry count of version-check violations: one per key of
the environment version map whose declared range is truthy and whose
flag-stripped actual version fails the range test, and none
otherwise. -/
theorem checkVersions_length (sat : String → String → Bool)
    (versions ranges : List (String × String)) (group : String) :
    (checkVersions sat versions ranges group).length =
      versions.countP (versionEntryViolates sat ranges) := by
  induction versions with
  | nil => rfl
  | cons vp vs ih =>
      unfold checkVersions
      unfold checkVersions at ih
      rw [List.filterMap_cons, List.countP_cons]
      cases hE : versionEntryError sat ranges group vp with
      | none =>
          have hV : versionEntryViolates sat ranges vp = false := by
            rw [← versionEntryError_isSome sat ranges group vp, hE]
            rfl
          simp [hV, ih]
      | some err =>
          have hV : versionEntryViolates sat ranges vp = true := by
            rw [← versionEntryError_isSome sat ranges group vp, hE]
            rfl
          simp [hV, ih]

/-- Example range-satisfaction oracle for the counterexample below: it
accepts exactly the version "1.0.0" (matching real semver on the two
inputs that matter there: semver treats "1.0.0-" as invalid and reports
any range as unsatisfied by it, while "1.0.0" satisfies "1.x"). -/
def satExample (v _r : String) : Bool :=
  v == "1.0.0"

/-- Counterexample to claim C3 as stated: the claim (following the
spec's gloss) says the actual version has the characters from the first
"-" onward stripped before the range test, so the version "1.0.0-"
would be tested as "1.0.0"; satisfied, hence no violation.  The code's
regex "-.+" requires at least one character after the dash, so the
trailing lone dash of "1.0.0-" is NOT stripped, the unstripped string
reaches the range test, fails it, and exactly the violation the claim
rules out is recorded. -/
theorem claim3_counterexample :
    specStripVersion "1.0.0-" = "1.0.0" ∧
    satExample (specStripVersion "1.0.0-") "1.x" = true ∧
    stripFlag "1.0.0-" = "1.0.0-" ∧
    checkVersions satExample [("node", "1.0.0-")] [("node", "1.x")] "engine" =
      [Errlop.base "engine [node = 1.x] unsupported by plugin's range [1.x]"] :=
  ⟨rfl, rfl, rfl, rfl⟩

/-- Claim C3 (amended): for every engines or peerDependencies entry
checked during compatibility validation (key reported by the
environment's version map, truthy declared range), the actual version
is first stripped by the single replacement of the regex "-.+": at the
first "-" followed by at least one character, that dash and the
following run up to the end of the line are removed (a trailing lone
dash, or one followed only by a newline, is kept).  If the range is
satisfied after this stripping, no violation is recorded for the entry;
if unsatisfied, exactly one violation per unsatisfied entry; and every
recorded violation surfaces inside the single aggregated construction
failure. -/
theorem claim3_version_check (sat : String → String → Bool)
    (versions ranges : List (String × String)) (group : String)
    (env : Env) (opts : PluginLoaderOptions) (pdIn : PackageDataInput)
    (nm : String) (cls : JSValue)
    (hacq : acquirePackageData env opts = .ok pdIn)
    (hname : pdIn.name.getD "" ≠ "")
    (hder : deriveName (pdIn.name.getD "") opts.pfx = .ok nm)
    (hres : resolve env.app opts.pluginPath nm opts.basePlugin
      (candidateOf env opts) = .ok cls) :
    ((checkVersions sat versions ranges group).length =
      versions.countP (versionEntryViolates sat ranges)) ∧
    (validationErrors env (mkState opts (defaultData pdIn) nm cls) ≠ [] →
      ∃ e, construct env opts = .error e ∧
        ∀ v ∈ validationErrors env (mkState opts (defaultData pdIn) nm cls),
          ContainsSub e.stack v.stack) := by
  constructor
  · exact checkVersions_length sat versions ranges group
  · intro hne
    obtain ⟨top, hagg, _, hcontains⟩ := aggregate_stack_contains hne
    refine ⟨top, ?_, hcontains⟩
    rw [construct_validation env opts pdIn nm cls hacq hname hder hres, hagg]

/-- Witness for claim C3 (amended): one satisfied entry after stripping
"-beta", one unsatisfied entry, counted exactly; and a loader whose
engines check fails surfaces the violation in its failed
construction. -/
theorem claim3_version_check_witness :
    ((checkVersions (fun v r => v == "18.0.0" && r == "^18")
        [("node", "18.0.0-beta"), ("x", "2.0.0")]
        [("node", "^18"), ("x", "^3")] "engine").length =
      [("node", "18.0.0-beta"), ("x", "2.0.0")].countP
        (versionEntryViolates (fun v r => v == "18.0.0" && r == "^18")
          [("node", "^18"), ("x", "^3")])) ∧
    ∃ e, construct
      { sat := fun _ _ => false, app := fun _ _ => .returns ⟨true, 0⟩,
        platform := "linux", processVersions := [("node", "20.0.0")],
        manifest := fun _ => ⟨none, none, none, none, none⟩,
        moduleLoad := fun _ => ⟨false, 0⟩ }
      { keyword := none, pfx := none, versions := none,
        pluginPath := some "/plugins/p",
        packageData := some ⟨some "plug", none, none,
          some [("node", "^18.0.0")], none⟩,
        pluginClass := some ⟨true, 1⟩, basePlugin := ⟨true, 2⟩ } = .error e ∧
      ∀ v ∈ validationErrors
        { sat := fun _ _ => false, app := fun _ _ => .returns ⟨true, 0⟩,
          platform := "linux", processVersions := [("node", "20.0.0")],
          manifest := fun _ => ⟨none, none, none, none, none⟩,
          moduleLoad := fun _ => ⟨false, 0⟩ }
        (mkState
          { keyword := none, pfx := none, versions := none,
            pluginPath := some "/plugins/p",
            packageData := some ⟨some "plug", none, none,
              some [("node", "^18.0.0")], none⟩,
            pluginClass := some ⟨true, 1⟩, basePlugin := ⟨true, 2⟩ }
          (defaultData ⟨some "plug", none, none,
            some [("node", "^18.0.0")], none⟩) "plug" ⟨true, 1⟩),
        ContainsSub e.stack v.stack := by
  have h := claim3_version_check (fun v r => v == "18.0.0" && r == "^18")
    [("node", "18.0.0-beta"), ("x", "2.0.0")]
    [("node", "^18"), ("x", "^3")] "engine"
    { sat := fun _ _ => false, app := fun _ _ => .returns ⟨true, 0⟩,
      platform := "linux", processVersions := [("node", "20.0.0")],
      manifest := fun _ => ⟨none, none, none, none, none⟩,
      moduleLoad := fun _ => ⟨false, 0⟩ }
    { keyword := none, pfx := none, versions := none,
      pluginPath := some "/plugins/p",
      packageData := some ⟨some "plug", none, none,
        some [("node", "^18.0.0")], none⟩,
      pluginClass := some ⟨true, 1⟩, basePlugin := ⟨true, 2⟩ }
    ⟨some "plug", none, none, some [("node", "^18.0.0")], none⟩
    "plug" ⟨true, 1⟩ rfl (by decide) rfl rfl
  exact ⟨h.1, h.2 (by decide)⟩

end Pluginloader
